import Mathlib

/-!
Verification of the service worker `sw.js` of BDStreamHub_Web (CricStreamZone).

The worker is shallowly embedded: each event handler becomes a pure Lean
function from its inputs (the network outcome, the current cache storage,
the event payload, the open window clients) to its outputs (the response
handed to the page, the updated cache storage, the list of side effects).
Platform primitives (Cache Storage, fetch, notification display) are
modelled by explicit data; the nondeterministic fields the worker attaches
to notifications (`Date.now()`, `Math.random()`) are omitted, as no claim
mentions them.
-/

namespace SW

/-- Response type of the Fetch API: a same-origin (non-redirect-manual)
response has type `basic`, cross-origin responses have type `cors` or
`opaque`, a redirect under `redirect: "manual"` has type `opaqueredirect`.
Note that a *followed* redirect keeps type `basic`/`cors` and instead sets
the separate `redirected` flag on the response. -/
inductive ResponseType
  | basic
  | cors
  | opq            -- the type the Fetch API spells "opaque"
  | opaqueredirect
  | error
  deriving DecidableEq, Repr

/-- A stored or network response: HTTP status, Fetch-API response type,
the `redirected` flag, and the body bytes (as a string). -/
structure Response where
  status : Nat
  rtype : ResponseType
  redirected : Bool
  body : String
  deriving DecidableEq, Repr

/-- One cache bucket: a map from request identity (the URL) to a response.
`Cache.put` replaces any previous entry with the same identity. -/
abbrev Cache := List (String × Response)

/-- The whole Cache Storage: named buckets in creation order. -/
abbrev CacheStorage := List (String × Cache)

/-- cache.put(request, response): overwrite the entry for this identity. -/
def cachePut (c : Cache) (key : String) (r : Response) : Cache :=
  (key, r) :: c.filter (fun p => p.1 != key)

/-- cache.match(request) inside a single bucket. -/
def cacheMatch (c : Cache) (key : String) : Option Response :=
  (c.find? (fun p => p.1 == key)).map Prod.snd

/-- caches.open(name): create the bucket if absent (appended in creation
order), otherwise leave the storage unchanged. -/
def cachesOpen (name : String) (sto : CacheStorage) : CacheStorage :=
  if sto.any (fun b => b.1 == name) then sto else sto ++ [(name, [])]

/-- caches.delete(name): remove the bucket of that name. -/
def cachesDelete (name : String) (sto : CacheStorage) : CacheStorage :=
  sto.filter (fun b => b.1 != name)

/-- caches.match(request): first match over all buckets in order. -/
def cachesMatch (sto : CacheStorage) (key : String) : Option Response :=
  sto.findSome? (fun b => cacheMatch b.2 key)

/-- Lookup restricted to the bucket of a given name (used to state where
an entry was stored). -/
def bucketMatch (name : String) (sto : CacheStorage) (key : String) :
    Option Response :=
  match sto.find? (fun b => b.1 == name) with
  | some b => cacheMatch b.2 key
  | none => none

/-- caches.open(name).then(cache => cache.put(key, r)): open the bucket,
then overwrite the entry inside it. -/
def storagePut (name key : String) (r : Response) (sto : CacheStorage) :
    CacheStorage :=
  (cachesOpen name sto).map
    (fun b => if b.1 == name then (b.1, cachePut b.2 key r) else b)

/-- Does the list `pat` occur at the head of `l`? (helper for substring). -/
def listStarts [BEq α] : List α → List α → Bool
  | [], _ => true
  | _ :: _, [] => false
  | p :: ps, x :: xs => p == x && listStarts ps xs

/-- Does the list `pat` occur contiguously anywhere in `l`? -/
def listSub [BEq α] (pat : List α) : List α → Bool
  | [] => listStarts pat []
  | x :: xs => listStarts pat (x :: xs) || listSub pat xs

/-- JavaScript `s.includes(pat)`: substring containment. -/
def strContains (s pat : String) : Bool :=
  listSub pat.toList s.toList

/-- const CACHE_NAME = 'cricstreamzone-v1.0.6' (sw.js line 2). -/
def CACHE_NAME : String := "cricstreamzone-v1.0.6"

/-- const urlsToCache = [...] (sw.js lines 3-12). -/
def urlsToCache : List String :=
  [ "/",
    "/index.html",
    "/manifest.json",
    "https://cdnjs.cloudflare.com/ajax/libs/bodymovin/5.7.4/lottie.min.js",
    "https://i.postimg.cc/3rPWWckN/icon-192.png",
    "https://i.postimg.cc/BvWg87Rd/videocam-24dp-E3-E3-E3-FILL0-wght400-GRAD0-opsz24.png",
    "https://i.postimg.cc/K8JDvvxs/live-tv-24dp-E3-E3-E3-FILL0-wght400-GRAD0-opsz24.png",
    "https://i.postimg.cc/YC472jwd/radio-24dp-E3-E3-E3-FILL0-wght400-GRAD0-opsz24.png" ]

/-- A request as seen by the fetch handler: its identity (full URL) and
the `hostname`/`pathname` components that `new URL(event.request.url)`
exposes (URL parsing is a platform primitive, so the components are given
as fields). -/
structure Request where
  url : String
  hostname : String
  pathname : String
  deriving DecidableEq, Repr

/-- sw.js line 58: url.hostname.includes('script.google.com') ||
url.pathname.includes('api'). -/
def isDynamic (req : Request) : Bool :=
  strContains req.hostname "script.google.com" || strContains req.pathname "api"

/-- Outcome of the fetch handler for one request: the response delivered
to the page (`none` means the request fails as a network error), the
cache storage afterwards, and whether a network fetch was issued. -/
structure ServeResult where
  response : Option Response
  storage : CacheStorage
  networkCalled : Bool
  deriving DecidableEq

/-- sw.js lines 54-98, the fetch handler. `net` is the network outcome for
this request: `some r` when fetch resolves with response `r`, `none` when
it rejects. The floating `caches.open(...).then(cache => cache.put(...))`
promises are modelled as having completed. In the static branch, the guard
on line 84 checks exactly `status !== 200 || type !== 'basic'` (the
`!response` disjunct cannot fire on a resolved fetch); the `redirected`
flag of the response is not consulted anywhere. -/
def handleFetch (net : Option Response) (sto : CacheStorage) (req : Request) :
    ServeResult :=
  if isDynamic req then
    match net with
    | some r =>
        { response := some r
          storage := storagePut CACHE_NAME req.url r sto
          networkCalled := true }
    | none =>
        { response := cachesMatch sto req.url
          storage := sto
          networkCalled := true }
  else
    match cachesMatch sto req.url with
    | some r => { response := some r, storage := sto, networkCalled := false }
    | none =>
        match net with
        | some r =>
            if r.status ≠ 200 ∨ r.rtype ≠ ResponseType.basic then
              { response := some r, storage := sto, networkCalled := true }
            else
              { response := some r
                storage := storagePut CACHE_NAME req.url r sto
                networkCalled := true }
        | none => { response := none, storage := sto, networkCalled := true }

/-- Cache.addAll(urls): each URL is fetched via `net`; per the Cache
Storage platform semantics the operation is a batch: it returns the cache
with every (url, response) entry added when all fetches succeed, and
rejects (returns `none`, committing nothing) when any fetch fails. -/
def addAll (net : String → Option Response) (urls : List String) (c : Cache) :
    Option Cache :=
  match urls with
  | [] => some c
  | u :: rest =>
      match net u with
      | some r => addAll net rest (cachePut c u r)
      | none => none

/-- Helper: the cache currently stored under a bucket name (empty if the
name is absent; the handlers only use it right after `cachesOpen`). -/
def getBucket (name : String) (sto : CacheStorage) : Cache :=
  match sto.find? (fun b => b.1 == name) with
  | some b => b.2
  | none => []

/-- Helper: replace the contents of the named bucket. -/
def setBucket (name : String) (c : Cache) (sto : CacheStorage) : CacheStorage :=
  sto.map (fun b => if b.1 == name then (b.1, c) else b)

/-- Outcome of the install handler: the cache storage afterwards, whether
the promise passed to `event.waitUntil` settled successfully (when it
does, the browser records the install as successful; the install is
aborted only if that promise rejects), and whether `self.skipWaiting()`
was called. -/
structure InstallResult where
  storage : CacheStorage
  installCompleted : Bool
  skipWaitingCalled : Bool
  deriving DecidableEq

/-- sw.js lines 15-31, the install handler:
caches.open(CACHE_NAME).then(cache => cache.addAll(urlsToCache))
.then(() => self.skipWaiting()).catch(error => console.error(...)).
The final `.catch` swallows any rejection from `addAll`, so the promise
given to `event.waitUntil` always resolves: `installCompleted` is true on
both paths, and only `skipWaiting` distinguishes success from failure. -/
def handleInstall (net : String → Option Response) (sto : CacheStorage) :
    InstallResult :=
  let sto1 := cachesOpen CACHE_NAME sto
  match addAll net urlsToCache (getBucket CACHE_NAME sto1) with
  | some c =>
      { storage := setBucket CACHE_NAME c sto1
        installCompleted := true
        skipWaitingCalled := true }
  | none =>
      { storage := sto1
        installCompleted := true
        skipWaitingCalled := false }

/-- sw.js lines 34-51, the activate handler: take the snapshot
caches.keys(), and for each name that differs from CACHE_NAME run
caches.delete(name) (Promise.all of the deletions is modelled as a fold
over the snapshot). -/
def handleActivate (sto : CacheStorage) : CacheStorage :=
  (sto.map Prod.fst).foldl
    (fun s n => if n == CACHE_NAME then s else cachesDelete n s) sto

/-- The JSON fields of a push payload that the worker reads (spec section
6 names exactly these; a field is `none` when the key is absent). -/
structure PushFields where
  title : Option String := none
  body : Option String := none
  icon : Option String := none
  badge : Option String := none
  url : Option String := none
  matchData : Option String := none
  matchId : Option String := none
  deriving DecidableEq, Repr

/-- Outcome of `event.data.json()` on the payload: either it parses to an
object with the fields above (`jsonData`), or it throws and
`event.data.text()` yields the raw text (`textData`). JSON parsing itself
is a platform primitive, so the parse outcome is given as data. -/
inductive PushData
  | jsonData (fields : PushFields)
  | textData (s : String)
  deriving DecidableEq, Repr

/-- The `notificationData` object of sw.js lines 104-119 after merging:
the four defaulted fields plus the optional fields a payload may add. -/
structure NotificationData where
  title : String
  body : String
  icon : String
  badge : String
  url : Option String := none
  matchData : Option String := none
  matchId : Option String := none
  deriving DecidableEq, Repr

/-- sw.js lines 104-109: the default descriptor. -/
def defaultNotificationData : NotificationData :=
  { title := "CricStreamZone"
    body := "New cricket match update!"
    icon := "https://i.postimg.cc/3rPWWckN/icon-192.png"
    badge := "https://i.postimg.cc/3rPWWckN/icon-192.png" }

/-- JavaScript `x || d` for a possibly-absent string `x`: the default is
used when `x` is absent or falsy (the empty string). -/
def jsOr (o : Option String) (d : String) : String :=
  match o with
  | some s => if s == "" then d else s
  | none => d

/-- JavaScript `x || null` for a possibly-absent string `x`. -/
def jsOrNull (o : Option String) : Option String :=
  match o with
  | some s => if s == "" then none else some s
  | none => none

/-- sw.js line 115: `{ ...notificationData, ...pushData }` — a key present
in the decoded payload overrides the default, an absent key leaves it. -/
def mergePush (d : NotificationData) (p : PushFields) : NotificationData :=
  { title := p.title.getD d.title
    body := p.body.getD d.body
    icon := p.icon.getD d.icon
    badge := p.badge.getD d.badge
    url := match p.url with | some v => some v | none => d.url
    matchData := match p.matchData with | some v => some v | none => d.matchData
    matchId := match p.matchId with | some v => some v | none => d.matchId }

/-- The options object handed to showNotification (sw.js lines 121-154),
restricted to the deterministic fields (`dateOfArrival` and `primaryKey`
are fresh platform values and are omitted). `actions` keeps the action
ids in order. -/
structure NotificationOptions where
  body : String
  icon : String
  badge : String
  vibrate : List Nat
  dataUrl : String
  dataMatchData : Option String
  actions : List String
  requireInteraction : Bool
  silent : Bool
  tag : String
  renotify : Bool
  deriving DecidableEq, Repr

/-- sw.js lines 101-165, the push handler: start from the defaults; on a
payload, merge the decoded JSON over them, or on decode failure use the
raw text as the body; then build the options. Returns the (title, options)
pair passed to `self.registration.showNotification`. The handler always
reaches showNotification: a decode failure is caught and never rejects the
event. -/
def handlePush (data : Option PushData) : String × NotificationOptions :=
  let nd : NotificationData :=
    match data with
    | none => defaultNotificationData
    | some (PushData.jsonData f) => mergePush defaultNotificationData f
    | some (PushData.textData s) => { defaultNotificationData with body := s }
  (nd.title,
    { body := nd.body
      icon := nd.icon
      badge := nd.badge
      vibrate := [200, 100, 200, 100, 200]
      dataUrl := jsOr nd.url "/"
      dataMatchData := jsOrNull nd.matchData
      actions := ["watch", "remind", "dismiss"]
      requireInteraction := true
      silent := false
      tag := "cricket-match-" ++ jsOr nd.matchId "general"
      renotify := true })

/-- The `data` object attached to a shown notification, as read back by
the click handler: the target URL and the optional match data (the
nondeterministic `dateOfArrival`/`primaryKey` fields are never read by
the click handler). `url` is optional to model `data?.url`. -/
structure NotifData where
  url : Option String
  matchData : Option String
  deriving DecidableEq, Repr

/-- An open window client: its identity and its current URL. -/
structure WindowClient where
  id : Nat
  url : String
  deriving DecidableEq, Repr

/-- One observable effect of the notification-click handler, in order. -/
inductive ClickEffect
  | closeNotification
  | focusClient (id : Nat)
  | postShowLiveMatches (id : Nat) (data : Option NotifData)
  | openWindow (url : String)
  | scheduleReminder (delayMs : Nat) (title : String) (body : String)
      (tag : String)
  deriving DecidableEq, Repr

/-- client.url.includes(self.location.origin) (sw.js line 182). -/
def isAppWindow (origin : String) (c : WindowClient) : Bool :=
  strContains c.url origin

/-- sw.js lines 168-220, the notification-click handler, as the ordered
list of effects it performs. `origin` is self.location.origin; `winsAll`
is the result of clients.matchAll({type: 'window', includeUncontrolled:
true}) used by the watch branch; `winsCtl` is the result of
clients.matchAll({type: 'window'}) used by the default branch.
event.notification.close() runs first, before any branching. The watch
branch focuses and messages the first client whose URL contains the
origin and returns; only when none matches does it open
urlToOpen + '?action=watch'. -/
def handleNotificationClick (origin : String) (action : String)
    (data : Option NotifData) (winsAll winsCtl : List WindowClient) :
    List ClickEffect :=
  let urlToOpen : String :=
    match data with
    | some d => jsOr d.url "/"
    | none => "/"
  ClickEffect.closeNotification ::
    (if action == "watch" then
      match winsAll.find? (isAppWindow origin) with
      | some c => [ClickEffect.focusClient c.id,
                   ClickEffect.postShowLiveMatches c.id data]
      | none => [ClickEffect.openWindow (urlToOpen ++ "?action=watch")]
    else if action == "remind" then
      [ClickEffect.scheduleReminder (5 * 60 * 1000)
        "🔔 Cricket Match Reminder"
        "Don\x27t forget to check the live match!" "reminder"]
    else if action == "dismiss" then
      []
    else
      match winsCtl with
      | c :: _ => [ClickEffect.focusClient c.id]
      | [] => [ClickEffect.openWindow urlToOpen])

/-- How many windows a click-effect trace focuses or opens. -/
def focusOrOpenCount (effects : List ClickEffect) : Nat :=
  effects.countP (fun e =>
    match e with
    | ClickEffect.focusClient _ => true
    | ClickEffect.openWindow _ => true
    | _ => false)

/-! Helper lemmas about the cache primitives. -/

theorem cacheMatch_cachePut (c : Cache) (key : String) (r : Response) :
    cacheMatch (cachePut c key r) key = some r := by
  simp [cacheMatch, cachePut, List.find?_cons]

theorem find?_mapPut (name key : String) (r : Response) (l : CacheStorage) :
    (l.map (fun b => if b.1 == name then (b.1, cachePut b.2 key r) else b)).find?
        (fun b => b.1 == name) =
      (l.find? (fun b => b.1 == name)).map
        (fun b => (b.1, cachePut b.2 key r)) := by
  rw [List.find?_map]
  have hpf : ((fun b : String × Cache => b.1 == name) ∘
      fun b : String × Cache =>
        if b.1 == name then (b.1, cachePut b.2 key r) else b) =
      fun b : String × Cache => b.1 == name := by
    funext b
    by_cases hp : b.1 = name <;> simp [hp]
  rw [hpf]
  cases hfind : l.find? (fun b => b.1 == name) with
  | none => rfl
  | some b =>
    have hpb := List.find?_some hfind
    simp only at hpb
    simp [eq_of_beq hpb]

theorem cachesOpen_find?_isSome (name : String) (sto : CacheStorage) :
    ((cachesOpen name sto).find? (fun b => b.1 == name)).isSome := by
  unfold cachesOpen
  by_cases h : sto.any (fun b => b.1 == name)
  · rw [if_pos h]
    exact List.find?_isSome.mpr (List.any_eq_true.mp h)
  · rw [if_neg h, List.find?_append]
    cases hfind : sto.find? (fun b => b.1 == name) <;>
      simp [List.find?_cons, Option.or]

theorem bucketMatch_storagePut (name key : String) (r : Response)
    (sto : CacheStorage) :
    bucketMatch name (storagePut name key r sto) key = some r := by
  unfold bucketMatch storagePut
  rw [find?_mapPut]
  obtain ⟨b, hb⟩ :=
    Option.isSome_iff_exists.mp (cachesOpen_find?_isSome name sto)
  rw [hb]
  simp [cacheMatch_cachePut]

theorem find?_first {α : Type} (p : α → Bool) (pre : List α) (c : α)
    (post : List α) (h1 : ∀ x ∈ pre, p x = false) (h2 : p c = true) :
    (pre ++ c :: post).find? p = some c := by
  induction pre with
  | nil => simp [List.find?_cons, h2]
  | cons a as ih =>
    have ha : p a = false := h1 a (List.mem_cons_self a as)
    simp only [List.cons_append, List.find?_cons, ha]
    exact ih (fun x hx => h1 x (List.mem_cons_of_mem a hx))

theorem activate_fold_eq (keys : List String) (s : CacheStorage) :
    keys.foldl (fun s n => if n == CACHE_NAME then s else cachesDelete n s) s =
      s.filter (fun b => b.1 == CACHE_NAME || !(keys.contains b.1)) := by
  induction keys generalizing s with
  | nil => simp
  | cons n rest ih =>
    rw [List.foldl_cons]
    by_cases hn : n = CACHE_NAME
    · subst hn
      rw [if_pos (by simp), ih]
      refine List.filter_congr ?_
      intro b _
      by_cases hb : b.1 = CACHE_NAME <;> simp [List.contains_cons, hb]
    · have hn2 : (n == CACHE_NAME) = false := beq_eq_false_iff_ne.mpr hn
      rw [hn2]
      simp only [Bool.false_eq_true, if_false]
      rw [ih, cachesDelete, List.filter_filter]
      refine List.filter_congr ?_
      intro b _
      by_cases h1 : b.1 = n
      · simp [List.contains_cons, h1, hn]
      · simp [List.contains_cons, h1]

/-! Concrete fixtures used by witnesses and counterexamples. -/

/-- Network oracle on which one manifest fetch fails: the fetch of "/"
succeeds and every other URL (in particular "/index.html", which is in
the manifest) fails. -/
def netFailIndex : String → Option Response := fun u =>
  if u == "/" then
    some { status := 200, rtype := ResponseType.basic,
           redirected := false, body := "root" }
  else none

/-- A dynamic request: its hostname contains the remote-data domain. -/
def reqApi : Request :=
  { url := "https://script.google.com/macros/exec"
    hostname := "script.google.com"
    pathname := "/macros/exec" }

/-- A static request: no remote-data hostname, no "api" in the path. -/
def reqPage : Request :=
  { url := "https://self.test/page"
    hostname := "self.test"
    pathname := "/page" }

/-- A good (same-origin, 200) stored response. -/
def respOld : Response :=
  { status := 200, rtype := ResponseType.basic, redirected := false,
    body := "old" }

/-- A fresh network response for the dynamic request. -/
def respNew : Response :=
  { status := 200, rtype := ResponseType.basic, redirected := false,
    body := "new" }

/-- A same-origin successful response for the static request. -/
def respGood : Response :=
  { status := 200, rtype := ResponseType.basic, redirected := false,
    body := "ok" }

/-- A cross-origin (type cors) response. -/
def respCors : Response :=
  { status := 200, rtype := ResponseType.cors, redirected := false,
    body := "cdn" }

/-- A failed API response: HTTP 500, cross-origin type. -/
def respErr : Response :=
  { status := 500, rtype := ResponseType.cors, redirected := false,
    body := "err" }

/-- A same-origin 200 response that was obtained by following a redirect:
the Fetch API gives it type basic and sets its redirected flag. -/
def respRedirected : Response :=
  { status := 200, rtype := ResponseType.basic, redirected := true,
    body := "moved target" }

/-- Storage holding a good stored value for the dynamic request. -/
def stoApi : CacheStorage := [(CACHE_NAME, [(reqApi.url, respOld)])]

/-- Storage holding a good stored value for the static request. -/
def stoPage : CacheStorage := [(CACHE_NAME, [(reqPage.url, respGood)])]

/-- Storage with a stale bucket next to the current one. -/
def stoOld : CacheStorage :=
  [("cricstreamzone-v1.0.5", [("/", respOld)]),
   (CACHE_NAME, [("/", respGood)])]

/-! Claim theorems. -/

/-- C1 (code_bug): the claim says a failing manifest fetch aborts the
install (install succeeds only if every manifest fetch succeeds). The
handler indeed commits no partial population (addAll is atomic, the
bucket stays empty) and skips skipWaiting, but its final .catch swallows
the rejection, so the promise handed to event.waitUntil resolves and the
install event completes successfully instead of aborting: at a network
where the manifest entry "/index.html" is unfetchable, the install
handler still reports installCompleted = true. -/
theorem install_failure_swallowed :
    netFailIndex "/index.html" = none ∧
    "/index.html" ∈ urlsToCache ∧
    handleInstall netFailIndex [] =
      { storage := [(CACHE_NAME, [])]
        installCompleted := true
        skipWaitingCalled := false } := by
  refine ⟨by decide, by decide, by decide⟩

/-- C2 (confirmed): for a dynamic request, on network success the network
response is returned and a copy is stored in the bucket under the request
URL; on network failure a previously stored value for that URL is
returned; on network failure with nothing stored anywhere, the request
ends unresolved (no response). -/
theorem dynamic_serve_spec (sto : CacheStorage) (req : Request)
    (hdyn : isDynamic req = true) :
    (∀ r, (handleFetch (some r) sto req).response = some r ∧
      bucketMatch CACHE_NAME (handleFetch (some r) sto req).storage req.url =
        some r) ∧
    (∀ v, cachesMatch sto req.url = some v →
      (handleFetch none sto req).response = some v) ∧
    (cachesMatch sto req.url = none →
      (handleFetch none sto req).response = none) := by
  refine ⟨fun r => ⟨?_, ?_⟩, fun v hv => ?_, fun hn => ?_⟩ <;>
    simp [handleFetch, hdyn, bucketMatch_storagePut, *]

/-- Witness for C2 at concrete inputs: with a good value stored, network
success returns the fresh response, network failure returns the stored
one. -/
theorem dynamic_serve_spec_witness :
    (handleFetch (some respNew) stoApi reqApi).response = some respNew ∧
    (handleFetch none stoApi reqApi).response = some respOld := by
  constructor
  · exact ((dynamic_serve_spec stoApi reqApi (by decide)).1 respNew).1
  · exact (dynamic_serve_spec stoApi reqApi (by decide)).2.1 respOld (by decide)

/-- C3 counterexample: the claim says a redirected response is never
cached, but the guard on sw.js line 84 checks only the status and the
response type, not the redirected flag. A response obtained by following
a same-origin redirect has type basic, status 200 and redirected = true
(the Fetch API sets the separate redirected attribute and keeps type
basic); on a static miss it passes the guard and is stored, so the bucket
changes. -/
theorem static_redirected_cached_cex :
    isDynamic reqPage = false ∧
    respRedirected.redirected = true ∧
    cachesMatch [] reqPage.url = none ∧
    bucketMatch CACHE_NAME
        (handleFetch (some respRedirected) [] reqPage).storage reqPage.url =
      some respRedirected := by
  refine ⟨by decide, by decide, by decide, by decide⟩

/-- C3 (corrected): on a static miss, a status-200 type-basic (same
origin) network response is returned and stored; a response that is
cross-origin (type other than basic) or an error (status other than 200)
is returned but the storage is unchanged. The redirected flag is not part
of the guard. -/
theorem static_miss_cache_policy (sto : CacheStorage) (req : Request)
    (r : Response)
    (hstat : isDynamic req = false) (hmiss : cachesMatch sto req.url = none) :
    ((r.status = 200 ∧ r.rtype = ResponseType.basic) →
      (handleFetch (some r) sto req).response = some r ∧
      bucketMatch CACHE_NAME (handleFetch (some r) sto req).storage req.url =
        some r) ∧
    (¬(r.status = 200 ∧ r.rtype = ResponseType.basic) →
      (handleFetch (some r) sto req).response = some r ∧
      (handleFetch (some r) sto req).storage = sto) := by
  constructor
  · rintro ⟨h200, hbasic⟩
    have hcond : ¬(r.status ≠ 200 ∨ r.rtype ≠ ResponseType.basic) := by
      simp [h200, hbasic]
    constructor <;>
      simp [handleFetch, hstat, hmiss, hcond, bucketMatch_storagePut]
  · intro hng
    have hcond : r.status ≠ 200 ∨ r.rtype ≠ ResponseType.basic := by
      tauto
    constructor <;> simp [handleFetch, hstat, hmiss, hcond]

/-- Witness for the amended C3: a same-origin 200 response gets stored, a
cross-origin one leaves the storage unchanged. -/
theorem static_miss_cache_policy_witness :
    bucketMatch CACHE_NAME
        (handleFetch (some respGood) [] reqPage).storage reqPage.url =
      some respGood ∧
    (handleFetch (some respCors) [] reqPage).storage = [] := by
  constructor
  · exact ((static_miss_cache_policy [] reqPage respGood (by decide)
      (by decide)).1 (by decide)).2
  · exact ((static_miss_cache_policy [] reqPage respCors (by decide)
      (by decide)).2 (by decide)).2

/-- C4 (confirmed): for a static request with a stored value, the stored
response is returned for every network outcome, the storage is unchanged
and no network fetch is issued. -/
theorem static_hit_cache_wins (net : Option Response) (sto : CacheStorage)
    (req : Request) (v : Response)
    (hstat : isDynamic req = false) (hhit : cachesMatch sto req.url = some v) :
    (handleFetch net sto req).response = some v ∧
    (handleFetch net sto req).storage = sto ∧
    (handleFetch net sto req).networkCalled = false := by
  refine ⟨?_, ?_, ?_⟩ <;> simp [handleFetch, hstat, hhit]

/-- Witness for C4: the stored page is served both when the network would
answer with something else and when the network is down. -/
theorem static_hit_cache_wins_witness :
    (handleFetch (some respCors) stoPage reqPage).response = some respGood ∧
    (handleFetch none stoPage reqPage).networkCalled = false := by
  constructor
  · exact (static_hit_cache_wins (some respCors) stoPage reqPage respGood
      (by decide) (by decide)).1
  · exact (static_hit_cache_wins none stoPage reqPage respGood
      (by decide) (by decide)).2.2

/-- C5 (confirmed): after the activate handler runs, with the current
bucket present beforehand (install always opens it first), the set of
bucket names is exactly the singleton of the current version string. -/
theorem activate_singleton (sto : CacheStorage)
    (h : CACHE_NAME ∈ sto.map Prod.fst) :
    ((handleActivate sto).map Prod.fst).toFinset = {CACHE_NAME} := by
  unfold handleActivate
  rw [activate_fold_eq]
  have hfc : sto.filter
      (fun b => b.1 == CACHE_NAME || !((sto.map Prod.fst).contains b.1)) =
      sto.filter (fun b => b.1 == CACHE_NAME) := by
    refine List.filter_congr ?_
    intro b hb
    have hmem : b.1 ∈ sto.map Prod.fst := List.mem_map_of_mem Prod.fst hb
    have hcont : (sto.map Prod.fst).contains b.1 = true := by
      exact List.elem_iff.mpr hmem
    simp [hcont]
    intro hall
    exact absurd hb (hall b.2)
  rw [hfc]
  ext x
  simp only [List.mem_toFinset, List.mem_map, List.mem_filter,
    Finset.mem_singleton]
  constructor
  · rintro ⟨b, ⟨hb, hbeq⟩, hfx⟩
    rw [← hfx]
    exact eq_of_beq hbeq
  · rintro rfl
    obtain ⟨b, hb, hfb⟩ := List.mem_map.mp h
    exact ⟨b, ⟨hb, beq_iff_eq.mpr hfb⟩, hfb⟩

/-- Witness for C5: a stale versioned bucket next to the current one is
removed and only the current name remains. -/
theorem activate_singleton_witness :
    ((handleActivate stoOld).map Prod.fst).toFinset = {CACHE_NAME} :=
  activate_singleton stoOld (by decide)

/-- C6 (confirmed): decoded JSON fields are merged over the default
descriptor with decoded values winning, and the dedup tag is the match
identifier with generic fallback; the payload with title "X" and matchId
"42" yields title "X" and tag "cricket-match-42", and an absent payload
yields the default title and the generic tag. -/
theorem push_json_merge :
    (∀ f : PushFields,
      (handlePush (some (PushData.jsonData f))).1 =
        f.title.getD "CricStreamZone" ∧
      (handlePush (some (PushData.jsonData f))).2.body =
        f.body.getD "New cricket match update!" ∧
      (handlePush (some (PushData.jsonData f))).2.icon =
        f.icon.getD "https://i.postimg.cc/3rPWWckN/icon-192.png" ∧
      (handlePush (some (PushData.jsonData f))).2.badge =
        f.badge.getD "https://i.postimg.cc/3rPWWckN/icon-192.png" ∧
      (handlePush (some (PushData.jsonData f))).2.tag =
        "cricket-match-" ++ jsOr f.matchId "general") ∧
    (handlePush (some (PushData.jsonData
        { title := some "X", matchId := some "42" }))).1 = "X" ∧
    (handlePush (some (PushData.jsonData
        { title := some "X", matchId := some "42" }))).2.tag =
      "cricket-match-42" ∧
    (handlePush none).1 = "CricStreamZone" ∧
    (handlePush none).2.tag = "cricket-match-general" := by
  refine ⟨fun f => ⟨rfl, rfl, rfl, rfl, ?_⟩,
    by decide, by decide, by decide, by decide⟩
  cases hm : f.matchId <;>
    simp [handlePush, mergePush, defaultNotificationData, hm]

/-- C7 (confirmed): when structured decoding of the payload fails, the
raw text becomes the body and every other shown field keeps its default
(default title, icons, generic tag, root target URL); the handler still
reaches showNotification, so the decode failure never fails the event. -/
theorem push_text_fallback (s : String) :
    handlePush (some (PushData.textData s)) =
      ("CricStreamZone",
        { body := s
          icon := "https://i.postimg.cc/3rPWWckN/icon-192.png"
          badge := "https://i.postimg.cc/3rPWWckN/icon-192.png"
          vibrate := [200, 100, 200, 100, 200]
          dataUrl := "/"
          dataMatchData := none
          actions := ["watch", "remind", "dismiss"]
          requireInteraction := true
          silent := false
          tag := "cricket-match-general"
          renotify := true }) := by
  simp [handlePush, defaultNotificationData, jsOr, jsOrNull]

/-- C8 (confirmed): whatever the action, the notification data and the
open windows, the first effect of the click handler is closing the
clicked notification. -/
theorem click_closes_first (origin action : String) (data : Option NotifData)
    (winsAll winsCtl : List WindowClient) :
    (handleNotificationClick origin action data winsAll winsCtl).head? =
      some ClickEffect.closeNotification := rfl

/-- C9 (confirmed): for the watch action, if the window list decomposes
into a prefix of non-application windows followed by an application
window c, exactly c is focused and receives the showLiveMatches message
and nothing is opened; if no application window is open and the
notification data carries a non-empty URL u, exactly one window is opened
at u followed by the query marker; and in every case exactly one window
is focused or opened. -/
theorem click_watch_routing (origin : String) (data : Option NotifData)
    (winsAll winsCtl : List WindowClient) :
    (∀ pre c post, winsAll = pre ++ c :: post →
      (∀ x ∈ pre, isAppWindow origin x = false) →
      isAppWindow origin c = true →
      handleNotificationClick origin "watch" data winsAll winsCtl =
        [ClickEffect.closeNotification, ClickEffect.focusClient c.id,
         ClickEffect.postShowLiveMatches c.id data]) ∧
    ((∀ x ∈ winsAll, isAppWindow origin x = false) →
      ∀ u md, data = some { url := some u, matchData := md } → u ≠ "" →
      handleNotificationClick origin "watch" data winsAll winsCtl =
        [ClickEffect.closeNotification,
         ClickEffect.openWindow (u ++ "?action=watch")]) ∧
    focusOrOpenCount
        (handleNotificationClick origin "watch" data winsAll winsCtl) = 1 := by
  refine ⟨?_, ?_, ?_⟩
  · intro pre c post hw h1 h2
    subst hw
    have hf := find?_first (isAppWindow origin) pre c post h1 h2
    simp [handleNotificationClick, hf]
  · intro hall u md hdata hu
    have hf : winsAll.find? (isAppWindow origin) = none :=
      List.find?_eq_none.mpr (fun x hx => by simp [hall x hx])
    have hu2 : (u == "") = false := beq_eq_false_iff_ne.mpr hu
    subst hdata
    simp [handleNotificationClick, hf, jsOr, hu2]
  · cases hf : winsAll.find? (isAppWindow origin) <;>
      simp [handleNotificationClick, focusOrOpenCount, hf, List.countP_cons]

/-- Witness for C9: with one foreign and one application window the
application window (id 2) is focused and messaged; with no open windows a
single window is opened at the notification URL with the watch marker. -/
theorem click_watch_routing_witness :
    handleNotificationClick "app.example" "watch"
        (some { url := some "https://app.example/", matchData := none })
        [{ id := 1, url := "https://other.site/x" },
         { id := 2, url := "https://app.example/live" }] [] =
      [ClickEffect.closeNotification, ClickEffect.focusClient 2,
       ClickEffect.postShowLiveMatches 2
         (some { url := some "https://app.example/", matchData := none })] ∧
    handleNotificationClick "app.example" "watch"
        (some { url := some "https://app.example/", matchData := none })
        [] [] =
      [ClickEffect.closeNotification,
       ClickEffect.openWindow ("https://app.example/" ++ "?action=watch")] := by
  constructor
  · exact (click_watch_routing "app.example"
      (some { url := some "https://app.example/", matchData := none })
      [{ id := 1, url := "https://other.site/x" },
       { id := 2, url := "https://app.example/live" }] []).1
      [{ id := 1, url := "https://other.site/x" }]
      { id := 2, url := "https://app.example/live" } [] rfl
      (by decide) (by decide)
  · exact (click_watch_routing "app.example"
      (some { url := some "https://app.example/", matchData := none })
      [] []).2.1 (by decide) "https://app.example/" none rfl (by decide)

/-- C10 (confirmed): in the dynamic branch every resolved network
response is stored into the bucket with no status, origin-type or
redirect check — the quantification over r carries no side condition —
and in particular it replaces whatever was previously stored under the
same request identity. -/
theorem dynamic_unconditional_store (sto : CacheStorage) (req : Request)
    (r : Response) (hdyn : isDynamic req = true) :
    bucketMatch CACHE_NAME (handleFetch (some r) sto req).storage req.url =
      some r ∧
    (∀ prior, bucketMatch CACHE_NAME sto req.url = some prior →
      bucketMatch CACHE_NAME (handleFetch (some r) sto req).storage req.url =
        some r) := by
  constructor
  · simp [handleFetch, hdyn, bucketMatch_storagePut]
  · intro prior _
    simp [handleFetch, hdyn, bucketMatch_storagePut]

/-- Witness for C10: a good 200 response is stored for the API request;
after the network resolves with a 500 cross-origin response, the bucket
holds that failed response instead. -/
theorem dynamic_unconditional_store_witness :
    bucketMatch CACHE_NAME stoApi reqApi.url = some respOld ∧
    bucketMatch CACHE_NAME
        (handleFetch (some respErr) stoApi reqApi).storage reqApi.url =
      some respErr := by
  constructor
  · decide
  · exact (dynamic_unconditional_store stoApi reqApi respErr (by decide)).1

end SW
